import Mathlib

/-!
Shallow embedding of the rainbow-hat-rs peripheral protocol layer
(src/apa102.rs, src/ht16k33.rs, src/alphanum4.rs) and verification of
the frozen claims about it.

Machine integers (u8/u16/usize) are modelled as Nat; `f32` brightness
inputs are modelled as rationals (every input exercised by the claims
is exactly representable and every operation on it is exact).
Fallible operations return an explicit outcome: `ok` carries the new
state and the list of collaborator (GPIO / I2C) calls performed, `err`
models a returned `Err` (state mutations made before the error are
kept, as in Rust), and `panic` models a Rust panic (assertion failure,
`unwrap()` on `None`, out-of-bounds array index, usize underflow).
-/

namespace RainbowHat

/-- Outcome of a driver operation: success with final state and the
collaborator calls made, a returned error (state kept, as Rust keeps
mutations made before an early return), or a panic. -/
inductive Out (σ : Type) (ε : Type) : Type where
  | ok (st : σ) (evs : List ε)
  | err (st : σ) (evs : List ε)
  | panic
deriving DecidableEq

/-- Environment: whether acquiring the physical resources succeeds
(GPIO pin claiming for the APA102, I2C bus opening + addressing + the
oscillator write for the HT16K33). -/
structure Env : Type where
  gpioOk : Bool
  i2cOk : Bool
deriving DecidableEq

/-! ## APA102 (src/apa102.rs) -/

/-- GPIO BCM pin number for DAT (src/apa102.rs). -/
def GPIO_DAT : ℕ := 10

/-- GPIO BCM pin number for CLK (src/apa102.rs). -/
def GPIO_CLK : ℕ := 11

/-- GPIO BCM pin number for CS (src/apa102.rs). -/
def GPIO_CS : ℕ := 8

/-- Number of pixels (src/apa102.rs). -/
def NUM_PIXELS : ℕ := 7

/-- Default brightness constant (src/apa102.rs). -/
def BRIGHTNESS : ℕ := 7

/-- One pixel record: `pixels[i]` is `[r, g, b, brightness]` in the source. -/
structure Pixel : Type where
  r : ℕ
  g : ℕ
  b : ℕ
  br : ℕ
deriving DecidableEq

/-- State of the APA102 driver. The three `Option<Box<OutputPin>>`
fields are abstracted to a single `pins` flag (all three are acquired
together in `setup`, and `show`/`write_byte` only ever `unwrap()` them). -/
structure APA102 : Type where
  pins : Bool
  pixels : List Pixel
  brightness : ℕ
  simulation : Bool
  is_setup : Bool
deriving DecidableEq

/-- Model of `APA102::new()`. -/
def apaNew : APA102 :=
  { pins := false
    pixels := List.replicate NUM_PIXELS ⟨0, 0, 0, 0⟩
    brightness := BRIGHTNESS
    simulation := false
    is_setup := false }

/-- Rust `f32::round`: round half away from zero. -/
def rustRound (q : ℚ) : ℤ :=
  if 0 ≤ q then ⌊q + 1/2⌋ else -⌊(1/2) - q⌋

/-- The brightness quantization the SOURCE performs:
`(31.0 * brightness.round()) as u8` (src/apa102.rs lines 109 and 241).
Note the source rounds the input first and multiplies afterwards. -/
def quantize (brightness : ℚ) : ℕ :=
  (31 * rustRound brightness).toNat

/-- Modelled from the spec: the quantization the spec describes,
round(31 × brightness) — multiply by 31 first, then round to the
nearest integer. Kept separate so it can be compared with `quantize`,
the quantization the source actually performs. -/
def quantizeSpec (brightness : ℚ) : ℕ :=
  (rustRound (31 * brightness)).toNat

/-- Collaborator calls made by the APA102 driver: claiming an output
pin, and writing a logic level to the DAT / CLK / CS line
(`true` = Level::High). -/
inductive GpioEv : Type where
  | acquire (pin : ℕ)
  | dat (level : Bool)
  | clk (level : Bool)
  | cs (level : Bool)
deriving DecidableEq

/-- Model of `APA102::setup()`: lazily acquires the three output pins; a no-op
once `is_setup`; skipped entirely (except for the flag) in simulation
mode.  On acquisition failure the `?` operator returns the wrapped
GPIO error before any state change. -/
def apaSetup (env : Env) (st : APA102) : Out APA102 GpioEv :=
  if st.is_setup then .ok st []
  else if st.simulation then .ok { st with is_setup := true } []
  else if env.gpioOk then
    .ok { st with pins := true, is_setup := true }
      [.acquire GPIO_DAT, .acquire GPIO_CLK, .acquire GPIO_CS]
  else .err st []

/-- Model of `APA102::set_brightness(brightness)`: asserts the range, then
stores `(31.0 * brightness.round()) as u8` in every pixel's brightness
slot. -/
def apaSetBrightness (brightness : ℚ) (st : APA102) : Out APA102 GpioEv :=
  if 0 ≤ brightness ∧ brightness ≤ 1 then
    .ok { st with pixels := st.pixels.map (fun p => { p with br := quantize brightness }) } []
  else .panic

/-- Model of `APA102::clear()`: zeroes R, G, B of every pixel; brightness is
left unchanged. -/
def apaClear (st : APA102) : APA102 :=
  { st with pixels := st.pixels.map (fun p => { p with r := 0, g := 0, b := 0 }) }

/-- Model of `APA102::set_pixel(x, r, g, b, brightness)`: asserts the
brightness range, then writes the four slots of `pixels[x]`; the array
index panics when `x` is out of bounds (before any mutation, since the
R slot is written first). -/
def apaSetPixel (x r g b : ℕ) (brightness : ℚ) (st : APA102) : Out APA102 GpioEv :=
  if 0 ≤ brightness ∧ brightness ≤ 1 then
    if x < st.pixels.length then
      .ok { st with pixels := st.pixels.set x ⟨r, g, b, quantize brightness⟩ } []
    else .panic
  else .panic

/-- Body of the `for i in 0..self.pixels.len()` loop of
`APA102::set_all`, over an explicit list of indices. -/
def apaSetAllGo (idxs : List ℕ) (r g b : ℕ) (brightness : ℚ) (st : APA102) :
    Out APA102 GpioEv :=
  match idxs with
  | [] => .ok st []
  | i :: rest =>
    match apaSetPixel i r g b brightness st with
    | .ok s e =>
      match apaSetAllGo rest r g b brightness s with
      | .ok s2 e2 => .ok s2 (e ++ e2)
      | .err s2 e2 => .err s2 (e ++ e2)
      | .panic => .panic
    | .err s e => .err s e
    | .panic => .panic

/-- Model of `APA102::set_all(r, g, b, brightness)`: applies `set_pixel` to
every index in `0..pixels.len()`. -/
def apaSetAll (r g b : ℕ) (brightness : ℚ) (st : APA102) : Out APA102 GpioEv :=
  apaSetAllGo (List.range st.pixels.length) r g b brightness st

/-- Model of `APA102::get_bit_at(byte, n)`: `byte & (1 << n) != 0`. -/
def get_bit_at (byte n : ℕ) : Bool :=
  byte &&& (1 <<< n) != 0

/-- The DAT/CLK writes performed by `APA102::write_byte`: for `i` in
`0..8`, write the bit at position `7 - i` to DAT, then pulse CLK high
then low. -/
def write_byte_events (byte : ℕ) : List GpioEv :=
  ((List.range 8).map (fun i =>
    [GpioEv.dat (get_bit_at byte (7 - i)), GpioEv.clk true, GpioEv.clk false])).flatten

/-- Emission of `n` clock pulses (CLK high then low), as in the loops of
`APA102::sof` and `APA102::eof`. -/
def clock_pulses (n : ℕ) : List GpioEv :=
  ((List.range n).map (fun _ => [GpioEv.clk true, GpioEv.clk false])).flatten

/-- The writes performed by `APA102::sof`: DAT low, then 32 clock pulses. -/
def sof_events : List GpioEv :=
  GpioEv.dat false :: clock_pulses 32

/-- The writes performed by `APA102::eof`: DAT low, then 36 clock pulses. -/
def eof_events : List GpioEv :=
  GpioEv.dat false :: clock_pulses 36

/-- The four `write_byte` calls `APA102::show` makes per pixel:
brightness/control byte `0b11100000 | pixels[i][3]`, then blue, green,
red. -/
def show_pixel_events (p : Pixel) : List GpioEv :=
  write_byte_events (0b11100000 ||| p.br) ++ write_byte_events p.b ++
    write_byte_events p.g ++ write_byte_events p.r

/-- All pin writes performed by the non-simulated body of
`APA102::show`: CS low, start frame, 4 bytes per pixel in order, end
frame, CS high.  (The simulation/pins guards inside `write_byte`,
`sof` and `eof` are hoisted here: `show` runs this body only when not
in simulation mode and the pins, all unwrapped together, are present.) -/
def show_events (st : APA102) : List GpioEv :=
  GpioEv.cs false ::
    (sof_events ++ (st.pixels.map show_pixel_events).flatten ++ eof_events ++ [GpioEv.cs true])

/-- Model of `APA102::show()`: runs `setup` first if not set up, but DISCARDS
its result (`let _result = self.setup();`); then, unless in
simulation mode, unwraps the CS pin (panicking if setup did not
acquire it) and performs the serial output. -/
def apaShow (env : Env) (st : APA102) : Out APA102 GpioEv :=
  match (if st.is_setup then Out.ok st [] else apaSetup env st) with
  | .panic => .panic
  | .ok s e | .err s e =>
    if s.simulation then .ok s e
    else if s.pins then .ok s (e ++ show_events s)
    else .panic

/-! ## HT16K33 (src/ht16k33.rs) -/

def DEFAULT_ADDRESS : ℕ := 0x70

def HT16K33_BLINK_CMD : ℕ := 0x80

def HT16K33_BLINK_DISPLAYON : ℕ := 0x01

def HT16K33_BLINK_OFF : ℕ := 0x00

def HT16K33_BLINK_2HZ : ℕ := 0x02

def HT16K33_BLINK_1HZ : ℕ := 0x04

def HT16K33_BLINK_HALFHZ : ℕ := 0x06

def HT16K33_SYSTEM_SETUP : ℕ := 0x20

def HT16K33_OSCILLATOR : ℕ := 0x01

def HT16K33_CMD_BRIGHTNESS : ℕ := 0xE0

/-- Collaborator calls made by the HT16K33 driver: opening and
addressing the I2C bus, and a block write of a command byte plus
payload bytes. -/
inductive I2cEv : Type where
  | acquire
  | blockWrite (command : ℕ) (payload : List ℕ)
deriving DecidableEq

/-- State of the HT16K33 driver. The `Option<Box<I2c>>` handle is
abstracted to the `i2c` flag. -/
structure HT16K33 : Type where
  i2c : Bool
  buffer : List ℕ
  blink_frequency : ℕ
  brightness : ℕ
  simulation : Bool
  is_setup : Bool
deriving DecidableEq

/-- Model of `HT16K33::new()`. -/
def htNew : HT16K33 :=
  { i2c := false
    buffer := List.replicate 8 0
    blink_frequency := HT16K33_BLINK_OFF
    brightness := 15
    simulation := false
    is_setup := false }

/-- Model of `HT16K33::i2c_block_write(command, buffer)`: skipped in simulation
mode; otherwise unwraps the I2C handle (panicking when it is absent)
and performs the block write. -/
def htBlockWrite (command : ℕ) (payload : List ℕ) (st : HT16K33) : Out HT16K33 I2cEv :=
  if st.simulation then .ok st []
  else if st.i2c then .ok st [.blockWrite command payload]
  else .panic

/-- Model of `HT16K33::set_blink(frequency)`: stores the frequency, then writes
`HT16K33_BLINK_CMD | HT16K33_BLINK_DISPLAYON | frequency` as a command
byte.  The source performs NO validation of the frequency. -/
def htSetBlink (frequency : ℕ) (st : HT16K33) : Out HT16K33 I2cEv :=
  htBlockWrite (HT16K33_BLINK_CMD ||| HT16K33_BLINK_DISPLAYON ||| frequency) []
    { st with blink_frequency := frequency }

/-- Model of `HT16K33::set_brightness(brightness)`: `assert!(brightness <= 15)`,
then stores it and writes `HT16K33_CMD_BRIGHTNESS | brightness`. -/
def htSetBrightness (brightness : ℕ) (st : HT16K33) : Out HT16K33 I2cEv :=
  if brightness ≤ 15 then
    htBlockWrite (HT16K33_CMD_BRIGHTNESS ||| brightness) []
      { st with brightness := brightness }
  else .panic

/-- Model of `HT16K33::setup()`: a no-op once `is_setup`.  Otherwise, unless in
simulation mode, opens and addresses the bus and writes the oscillator
enable command (any failure returns the wrapped I2C error, with the
handle left absent); then replays `set_blink` and `set_brightness`
with the stored values and records completion. -/
def htSetup (env : Env) (st : HT16K33) : Out HT16K33 I2cEv :=
  if st.is_setup then .ok st []
  else
    match (if st.simulation then Out.ok st ([] : List I2cEv)
           else if env.i2cOk then
             Out.ok { st with i2c := true }
               [I2cEv.acquire, I2cEv.blockWrite (HT16K33_SYSTEM_SETUP ||| HT16K33_OSCILLATOR) []]
           else Out.err st []) with
    | .panic => .panic
    | .err s e => .err s e
    | .ok s e =>
      match htSetBlink s.blink_frequency s with
      | .panic => .panic
      | .err s2 e2 => .err s2 (e ++ e2)
      | .ok s2 e2 =>
        match htSetBrightness s2.brightness s2 with
        | .panic => .panic
        | .err s3 e3 => .err s3 (e ++ e2 ++ e3)
        | .ok s3 e3 => .ok { s3 with is_setup := true } (e ++ e2 ++ e3)

/-- Model of `HT16K33::write_display()`: runs `setup` first if not set up, but
DISCARDS its result (`let _result = self.setup();`); then block-writes
the whole 8-byte buffer after a command byte of 0 (panicking inside
`i2c_block_write` if the handle is still absent). -/
def htWriteDisplay (env : Env) (st : HT16K33) : Out HT16K33 I2cEv :=
  match (if st.is_setup then Out.ok st [] else htSetup env st) with
  | .panic => .panic
  | .ok s e | .err s e =>
    match htBlockWrite 0 s.buffer s with
    | .ok s2 e2 => .ok s2 (e ++ e2)
    | .err s2 e2 => .err s2 (e ++ e2)
    | .panic => .panic

/-- Model of `HT16K33::clear()`: zeroes every byte of the display buffer. -/
def htClear (st : HT16K33) : HT16K33 :=
  { st with buffer := st.buffer.map (fun _ => 0) }

/-! ## Alphanum4 (src/alphanum4.rs) -/

/-- Table `DIGIT_VALUES`: the fixed glyph table, one entry per printable
ASCII character (codes 32 to 126 in order), mapping the character code
to its 16-bit segment bitmask. -/
def DIGIT_VALUES : List (ℕ × ℕ) :=
  [ (32,  0b0000000000000000),  -- space
    (33,  0b0000000000000110),  -- exclamation mark
    (34,  0b0000001000100000),  -- double quote
    (35,  0b0001001011001110),  -- number sign
    (36,  0b0001001011101101),  -- dollar
    (37,  0b0000110000100100),  -- percent
    (38,  0b0010001101011101),  -- ampersand
    (39,  0b0000010000000000),  -- apostrophe
    (40,  0b0010010000000000),  -- left paren
    (41,  0b0000100100000000),  -- right paren
    (42,  0b0011111111000000),  -- asterisk
    (43,  0b0001001011000000),  -- plus
    (44,  0b0000100000000000),  -- comma
    (45,  0b0000000011000000),  -- minus
    (46,  0b0000000000000000),  -- full stop
    (47,  0b0000110000000000),  -- slash
    (48,  0b0000110000111111),  -- 0
    (49,  0b0000000000000110),  -- 1
    (50,  0b0000000011011011),  -- 2
    (51,  0b0000000010001111),  -- 3
    (52,  0b0000000011100110),  -- 4
    (53,  0b0010000001101001),  -- 5
    (54,  0b0000000011111101),  -- 6
    (55,  0b0000000000000111),  -- 7
    (56,  0b0000000011111111),  -- 8
    (57,  0b0000000011101111),  -- 9
    (58,  0b0001001000000000),  -- colon
    (59,  0b0000101000000000),  -- semicolon
    (60,  0b0010010000000000),  -- less than
    (61,  0b0000000011001000),  -- equals
    (62,  0b0000100100000000),  -- greater than
    (63,  0b0001000010000011),  -- question mark
    (64,  0b0000001010111011),  -- at sign
    (65,  0b0000000011110111),  -- A
    (66,  0b0001001010001111),  -- B
    (67,  0b0000000000111001),  -- C
    (68,  0b0001001000001111),  -- D
    (69,  0b0000000011111001),  -- E
    (70,  0b0000000001110001),  -- F
    (71,  0b0000000010111101),  -- G
    (72,  0b0000000011110110),  -- H
    (73,  0b0001001000000000),  -- I
    (74,  0b0000000000011110),  -- J
    (75,  0b0010010001110000),  -- K
    (76,  0b0000000000111000),  -- L
    (77,  0b0000010100110110),  -- M
    (78,  0b0010000100110110),  -- N
    (79,  0b0000000000111111),  -- O
    (80,  0b0000000011110011),  -- P
    (81,  0b0010000000111111),  -- Q
    (82,  0b0010000011110011),  -- R
    (83,  0b0000000011101101),  -- S
    (84,  0b0001001000000001),  -- T
    (85,  0b0000000000111110),  -- U
    (86,  0b0000110000110000),  -- V
    (87,  0b0010100000110110),  -- W
    (88,  0b0010110100000000),  -- X
    (89,  0b0001010100000000),  -- Y
    (90,  0b0000110000001001),  -- Z
    (91,  0b0000000000111001),  -- left bracket
    (92,  0b0010000100000000),  -- backslash
    (93,  0b0000000000001111),  -- right bracket
    (94,  0b0000110000000011),  -- caret
    (95,  0b0000000000001000),  -- underscore
    (96,  0b0000000100000000),  -- backquote
    (97,  0b0001000001011000),  -- a
    (98,  0b0010000001111000),  -- b
    (99,  0b0000000011011000),  -- c
    (100, 0b0000100010001110),  -- d
    (101, 0b0000100001011000),  -- e
    (102, 0b0000000001110001),  -- f
    (103, 0b0000010010001110),  -- g
    (104, 0b0001000001110000),  -- h
    (105, 0b0001000000000000),  -- i
    (106, 0b0000000000001110),  -- j
    (107, 0b0011011000000000),  -- k
    (108, 0b0000000000110000),  -- l
    (109, 0b0001000011010100),  -- m
    (110, 0b0001000001010000),  -- n
    (111, 0b0000000011011100),  -- o
    (112, 0b0000000101110000),  -- p
    (113, 0b0000010010000110),  -- q
    (114, 0b0000000001010000),  -- r
    (115, 0b0010000010001000),  -- s
    (116, 0b0000000001111000),  -- t
    (117, 0b0000000000011100),  -- u
    (118, 0b0010000000000100),  -- v
    (119, 0b0010100000010100),  -- w
    (120, 0b0010100011000000),  -- x
    (121, 0b0010000000001100),  -- y
    (122, 0b0000100001001000),  -- z
    (123, 0b0000100101001001),  -- left brace
    (124, 0b0001001000000000),  -- vertical bar
    (125, 0b0010010010001001),  -- right brace
    (126, 0b0000010100100000) ] -- tilde

/-- The `digit_value` map of `Alphanum4`: lookup of a character code
in the glyph table. -/
def digitLookup (c : ℕ) : Option ℕ :=
  DIGIT_VALUES.lookup c

/-- Model of `Alphanum4::u16_to_u8(num)`: `(num & 0xFF, (num >> 8) & 0xFF)`. -/
def u16_to_u8 (num : ℕ) : ℕ × ℕ :=
  (num &&& 0xFF, (num >>> 8) &&& 0xFF)

/-- Model of `Alphanum4::set_digit_raw(pos, bitmask)`: out-of-bounds positions
are silently ignored; otherwise the bitmask is split into low/high
bytes stored at `buffer[pos*2]` and `buffer[pos*2+1]`. -/
def setDigitRaw (pos bitmask : ℕ) (st : HT16K33) : HT16K33 :=
  if pos ≤ 3 then
    { st with buffer :=
        (st.buffer.set (pos * 2) (u16_to_u8 bitmask).1).set (pos * 2 + 1) (u16_to_u8 bitmask).2 }
  else st

/-- Model of `Alphanum4::set_decimal(pos, decimal)`: out-of-bounds positions
are silently ignored; otherwise bit 6 of `buffer[pos*2+1]` is set
(`|= 1 << 6`) or cleared (`&= !(1 << 6)`, i.e. `&= 0xBF` on a u8). -/
def setDecimal (pos : ℕ) (decimal : Bool) (st : HT16K33) : HT16K33 :=
  if pos ≤ 3 then
    if decimal then
      { st with buffer := st.buffer.set (pos * 2 + 1) ((st.buffer.getD (pos * 2 + 1) 0) ||| (1 <<< 6)) }
    else
      { st with buffer := st.buffer.set (pos * 2 + 1) ((st.buffer.getD (pos * 2 + 1) 0) &&& 0xBF) }
  else st

/-- Model of `Alphanum4::set_digit(pos, digit, decimal)`: looks the character
up in the glyph table and `unwrap()`s the result (panicking when the
character is absent), then `set_digit_raw` followed by `set_decimal`. -/
def setDigit (pos digit : ℕ) (decimal : Bool) (st : HT16K33) : Out HT16K33 I2cEv :=
  match digitLookup digit with
  | none => .panic
  | some mask => .ok (setDecimal pos decimal (setDigitRaw pos mask st)) []

/-- The character loop of `Alphanum4::print_str`: `set_digit(pos, c,
false)` for each character, incrementing `pos`. -/
def printStrGo (chars : List ℕ) (pos : ℕ) (st : HT16K33) : Out HT16K33 I2cEv :=
  match chars with
  | [] => .ok st []
  | c :: rest =>
    match setDigit pos c false st with
    | .ok s _ => printStrGo rest (pos + 1) s
    | .err s e => .err s e
    | .panic => .panic

/-- Model of `Alphanum4::print_str(value, justify_right)`: the starting
position is 0, or `4 - value.len()` when right-justified — a usize
subtraction that underflows (panicking, in a debug build) when the
string is longer than 4 characters. -/
def printStr (chars : List ℕ) (justify_right : Bool) (st : HT16K33) : Out HT16K33 I2cEv :=
  match (if justify_right then
           (if chars.length ≤ 4 then some (4 - chars.length) else none)
         else some 0) with
  | none => .panic
  | some pos => printStrGo chars pos st

/-! ## Spec-side description of the LED serialization (for C2)

These definitions follow the WORDS of the spec sentence: a
start-of-frame of 32 clock pulses with the data line low; for each
pixel 4 bytes transmitted most-significant-bit first — a control byte
`0b11100000 OR brightness`, then blue, green, red; an end-of-frame of
36 clock pulses with the data line low. -/

/-- One bit transmission: set the data line to the bit value, pulse
the clock high then low. -/
def transmitBit (b : Bool) : List GpioEv :=
  [GpioEv.dat b, GpioEv.clk true, GpioEv.clk false]

/-- A byte transmitted most-significant-bit first (bit 7 down to bit 0). -/
def transmitByteMSBFirst (byte : ℕ) : List GpioEv :=
  ((List.range 8).map (fun i => transmitBit (byte.testBit (7 - i)))).flatten

/-- Emission of `n` clock pulses with the data line held low. -/
def pulsesDataLow (n : ℕ) : List GpioEv :=
  GpioEv.dat false :: ((List.range n).map (fun _ => [GpioEv.clk true, GpioEv.clk false])).flatten

/-- The 4 bytes of one pixel, per the spec: control byte
`0b11100000 | brightness5`, then blue, green, red. -/
def specPixelBytes (p : Pixel) : List ℕ :=
  [0b11100000 ||| p.br, p.b, p.g, p.r]

/-- The whole frame the spec describes: 32-pulse start frame, the
pixels' bytes MSB-first in index order, 36-pulse end frame. -/
def specShowFrame (pixels : List Pixel) : List GpioEv :=
  pulsesDataLow 32 ++
    (pixels.map (fun p => ((specPixelBytes p).map transmitByteMSBFirst).flatten)).flatten ++
    pulsesDataLow 36

/-! ## Combined system and operation sequences (for C7) -/

/-- A collaborator call of either driver. -/
inductive Ev : Type where
  | gpio (e : GpioEv)
  | i2cBus (e : I2cEv)
deriving DecidableEq

/-- Combined state of the two protocol drivers. -/
structure Sys : Type where
  led : APA102
  disp : HT16K33
deriving DecidableEq

/-- The buffer-mutating operations of the two drivers. -/
inductive Op : Type where
  | opSetPixel (x r g b : ℕ) (brightness : ℚ)
  | opSetAll (r g b : ℕ) (brightness : ℚ)
  | opSetBrightness (brightness : ℚ)
  | opClearLed
  | opShow
  | opSetBlink (frequency : ℕ)
  | opSetBrightness16 (brightness : ℕ)
  | opWriteDisplay
  | opClearDisplay
  | opSetDigitRaw (pos bitmask : ℕ)
  | opSetDecimal (pos : ℕ) (decimal : Bool)
  | opSetDigit (pos digit : ℕ) (decimal : Bool)
  | opPrintStr (chars : List ℕ) (justify_right : Bool)
deriving DecidableEq

/-- Lift an APA102 outcome to the combined system. -/
def liftLed (o : Out APA102 GpioEv) (disp : HT16K33) : Out Sys Ev :=
  match o with
  | .ok s e => .ok ⟨s, disp⟩ (e.map Ev.gpio)
  | .err s e => .err ⟨s, disp⟩ (e.map Ev.gpio)
  | .panic => .panic

/-- Lift an HT16K33 outcome to the combined system. -/
def liftDisp (led : APA102) (o : Out HT16K33 I2cEv) : Out Sys Ev :=
  match o with
  | .ok s e => .ok ⟨led, s⟩ (e.map Ev.i2cBus)
  | .err s e => .err ⟨led, s⟩ (e.map Ev.i2cBus)
  | .panic => .panic

/-- One operation applied to the combined system. -/
def stepOp (env : Env) (op : Op) (sys : Sys) : Out Sys Ev :=
  match op with
  | .opSetPixel x r g b br => liftLed (apaSetPixel x r g b br sys.led) sys.disp
  | .opSetAll r g b br => liftLed (apaSetAll r g b br sys.led) sys.disp
  | .opSetBrightness br => liftLed (apaSetBrightness br sys.led) sys.disp
  | .opClearLed => .ok ⟨apaClear sys.led, sys.disp⟩ []
  | .opShow => liftLed (apaShow env sys.led) sys.disp
  | .opSetBlink f => liftDisp sys.led (htSetBlink f sys.disp)
  | .opSetBrightness16 b => liftDisp sys.led (htSetBrightness b sys.disp)
  | .opWriteDisplay => liftDisp sys.led (htWriteDisplay env sys.disp)
  | .opClearDisplay => .ok ⟨sys.led, htClear sys.disp⟩ []
  | .opSetDigitRaw pos m => .ok ⟨sys.led, setDigitRaw pos m sys.disp⟩ []
  | .opSetDecimal pos d => .ok ⟨sys.led, setDecimal pos d sys.disp⟩ []
  | .opSetDigit pos c d => liftDisp sys.led (setDigit pos c d sys.disp)
  | .opPrintStr cs j => liftDisp sys.led (printStr cs j sys.disp)

/-- A sequence of operations, accumulating collaborator calls. -/
def run (env : Env) (ops : List Op) (sys : Sys) : Out Sys Ev :=
  match ops with
  | [] => .ok sys []
  | op :: rest =>
    match stepOp env op sys with
    | .ok s e =>
      match run env rest s with
      | .ok s2 e2 => .ok s2 (e ++ e2)
      | .err s2 e2 => .err s2 (e ++ e2)
      | .panic => .panic
    | .err s e => .err s e
    | .panic => .panic

/-- The data fields of the APA102 shared between the two modes (that
is, everything except the lifecycle plumbing: the pin handles and the
`simulation` flag). -/
structure LedData : Type where
  pixels : List Pixel
  brightness : ℕ
deriving DecidableEq

/-- The data fields of the HT16K33 shared between the two modes. -/
structure DispData : Type where
  buffer : List ℕ
  blink_frequency : ℕ
  brightness : ℕ
deriving DecidableEq

/-- Data fields of the combined system. -/
structure SysData : Type where
  led : LedData
  disp : DispData
deriving DecidableEq

/-- A simulation-mode APA102 after (trivially successful) setup, with
the given data fields. -/
def simLed (d : LedData) : APA102 :=
  { pins := false, pixels := d.pixels, brightness := d.brightness
    simulation := true, is_setup := true }

/-- A hardware-mode APA102 after successful setup (pins acquired),
with the given data fields. -/
def hwLed (d : LedData) : APA102 :=
  { pins := true, pixels := d.pixels, brightness := d.brightness
    simulation := false, is_setup := true }

/-- A simulation-mode HT16K33 after setup, with the given data fields. -/
def simDisp (d : DispData) : HT16K33 :=
  { i2c := false, buffer := d.buffer, blink_frequency := d.blink_frequency
    brightness := d.brightness, simulation := true, is_setup := true }

/-- A hardware-mode HT16K33 after successful setup, with the given
data fields. -/
def hwDisp (d : DispData) : HT16K33 :=
  { i2c := true, buffer := d.buffer, blink_frequency := d.blink_frequency
    brightness := d.brightness, simulation := false, is_setup := true }

/-- The combined system in simulation mode. -/
def mkSimSys (d : SysData) : Sys := ⟨simLed d.led, simDisp d.disp⟩

/-- The combined system in hardware mode, after successful setup. -/
def mkHwSys (d : SysData) : Sys := ⟨hwLed d.led, hwDisp d.disp⟩

/-- Extract the mode-independent data fields of a system state. -/
def sysData (s : Sys) : SysData :=
  ⟨⟨s.led.pixels, s.led.brightness⟩, ⟨s.disp.buffer, s.disp.blink_frequency, s.disp.brightness⟩⟩

/-- Correspondence between the outcome of an APA102 operation run in
simulation mode and the same operation run on hardware: either both
succeed with the same data fields (the simulated run with no
collaborator calls), or both panic. -/
def ledRel (o1 o2 : Out APA102 GpioEv) : Prop :=
  (∃ d evs, o1 = Out.ok (simLed d) [] ∧ o2 = Out.ok (hwLed d) evs) ∨
  (o1 = Out.panic ∧ o2 = Out.panic)

/-- Correspondence between HT16K33 outcomes across the two modes. -/
def dispRel (o1 o2 : Out HT16K33 I2cEv) : Prop :=
  (∃ d evs, o1 = Out.ok (simDisp d) [] ∧ o2 = Out.ok (hwDisp d) evs) ∨
  (o1 = Out.panic ∧ o2 = Out.panic)

/-- Correspondence between combined-system outcomes across the two modes. -/
def sysRel (o1 o2 : Out Sys Ev) : Prop :=
  (∃ d evs, o1 = Out.ok (mkSimSys d) [] ∧ o2 = Out.ok (mkHwSys d) evs) ∨
  (o1 = Out.panic ∧ o2 = Out.panic)

/-- The data fields of the final state of a run (`none` when the run
panicked). -/
def outData (o : Out Sys Ev) : Option SysData :=
  match o with
  | .ok s _ => some (sysData s)
  | .err s _ => some (sysData s)
  | .panic => none

/-- The collaborator calls a run performed (none are observable from a
panic, which aborts the program). -/
def outEvents (o : Out Sys Ev) : List Ev :=
  match o with
  | .ok _ e => e
  | .err _ e => e
  | .panic => []

/-! ## Claim theorems -/

/-- C1.  For brightness 0.5 the source stores level 31 in every pixel
it touches — both `set_pixel` and `set_brightness` compute
`(31.0 * brightness.round()) as u8`, i.e. 31 × round(b) — while the
claim requires round(31 × b) = 16.  The endpoints 0.0 ↦ 0 and
1.0 ↦ 31 do agree, but the quantization formula does not. -/
theorem c1_brightness_quantization_bug :
    quantize (1/2) = 31 ∧ quantizeSpec (1/2) = 16 ∧
    apaSetBrightness (1/2) { apaNew with simulation := true } =
      Out.ok { apaNew with
                simulation := true
                pixels := List.replicate NUM_PIXELS ⟨0, 0, 0, 31⟩ } [] ∧
    apaSetPixel 0 0 0 0 (1/2) { apaNew with simulation := true } =
      Out.ok { apaNew with
                simulation := true
                pixels := Pixel.mk 0 0 0 31 :: List.replicate 6 ⟨0, 0, 0, 0⟩ } [] ∧
    quantize 0 = 0 ∧ quantize 1 = 31 := by
  have hq : quantize (1/2) = 31 := by norm_num [quantize, rustRound] <;> rfl
  have hqs : quantizeSpec (1/2) = 16 := by norm_num [quantizeSpec, rustRound] <;> rfl
  have h0 : quantize 0 = 0 := by norm_num [quantize, rustRound] <;> rfl
  have h1 : quantize 1 = 31 := by norm_num [quantize, rustRound] <;> rfl
  refine ⟨hq, hqs, ?_, ?_, h0, h1⟩
  · rw [apaSetBrightness, if_pos (by norm_num)]
    simp [apaNew, NUM_PIXELS, List.map_replicate, hq]
    norm_num [quantize, rustRound] <;> rfl
  · rw [apaSetPixel, if_pos (by norm_num),
      if_pos (by simp [apaNew, NUM_PIXELS])]
    simp [apaNew, NUM_PIXELS, hq, List.replicate_succ]
    norm_num [quantize, rustRound] <;> rfl

/-- C3.  A fresh non-simulation driver whose resource acquisition
fails: `APA102::show` and `HT16K33::write_display` each run
`let _result = self.setup();`, DISCARD the returned error, and then
panic unwrapping the absent pin / bus handle — the collaborator error
is swallowed, not returned, contradicting the claim (and the spec's
stated failure semantics, which the signatures `Result<(), Error>` and
the wrapping `Error` enums show to be the intent). -/
theorem c3_setup_failure_swallowed :
    apaShow ⟨false, false⟩ apaNew = Out.panic ∧
    htWriteDisplay ⟨false, false⟩ htNew = Out.panic := by
  exact ⟨by decide, by decide⟩

/-- C4, counterexample.  The frequency code 3 is none of the four
legal blink codes (0x00, 0x02, 0x04, 0x06), yet `set_blink(3)` does
not abort: it stores 3 and writes the command byte 0x83.  The source
performs no validation. -/
theorem c4_set_blink_counterexample :
    (3 ≠ HT16K33_BLINK_OFF ∧ 3 ≠ HT16K33_BLINK_2HZ ∧
     3 ≠ HT16K33_BLINK_1HZ ∧ 3 ≠ HT16K33_BLINK_HALFHZ) ∧
    htSetBlink 3 { htNew with i2c := true, is_setup := true } =
      Out.ok { htNew with
                i2c := true
                is_setup := true
                blink_frequency := 3 } [I2cEv.blockWrite 0x83 []] := by
  constructor
  · decide
  · decide

/-- C4, amended.  `set_blink` validates nothing: for EVERY u8
frequency it stores the frequency and writes
`HT16K33_BLINK_CMD | HT16K33_BLINK_DISPLAYON | frequency` as a command
byte; the four legal codes are a documented precondition on the
caller, not checked by the operation. -/
theorem c4_set_blink_amended (frequency : ℕ) (st : HT16K33)
    (hfreq : frequency ≤ 255) (hsim : st.simulation = false) (hi2c : st.i2c = true) :
    htSetBlink frequency st =
      Out.ok { st with blink_frequency := frequency }
        [I2cEv.blockWrite (HT16K33_BLINK_CMD ||| HT16K33_BLINK_DISPLAYON ||| frequency) []] := by
  simp [htSetBlink, htBlockWrite, hsim, hi2c]

/-- Witness for `c4_set_blink_amended` at frequency 5. -/
theorem c4_set_blink_amended_witness :
    htSetBlink 5 { htNew with i2c := true, is_setup := true } =
      Out.ok { { htNew with i2c := true, is_setup := true } with blink_frequency := 5 }
        [I2cEv.blockWrite (HT16K33_BLINK_CMD ||| HT16K33_BLINK_DISPLAYON ||| 5) []] :=
  c4_set_blink_amended 5 { htNew with i2c := true, is_setup := true }
    (by decide) (by decide) (by decide)

/-- C5, counterexample.  Index 7 is beyond the 7-pixel chain and the
brightness 1.0 is in range, yet `set_pixel(7, 10, 20, 30, 1.0)` on a
fresh (simulation) driver PANICS on the out-of-bounds array index —
it is not silently ignored. -/
theorem c5_set_pixel_oob_counterexample :
    apaSetPixel 7 10 20 30 1 { apaNew with simulation := true } = Out.panic := by
  decide

/-- C5, amended.  `set_pixel` with an index at or beyond the chain
length panics (Rust array indexing aborts on out-of-bounds), for every
in-range brightness: out-of-range pixel indices are assertion-grade
failures, not benign silent ignores (unlike `set_digit_raw`, which
does silently ignore out-of-range positions). -/
theorem c5_set_pixel_oob_amended (x r g b : ℕ) (brightness : ℚ) (st : APA102)
    (h0 : 0 ≤ brightness) (h1 : brightness ≤ 1) (hx : st.pixels.length ≤ x) :
    apaSetPixel x r g b brightness st = Out.panic := by
  rw [apaSetPixel, if_pos ⟨h0, h1⟩, if_neg (by omega)]

/-- Witness for `c5_set_pixel_oob_amended` at index 9. -/
theorem c5_set_pixel_oob_amended_witness :
    apaSetPixel 9 1 2 3 (1/2) apaNew = Out.panic :=
  c5_set_pixel_oob_amended 9 1 2 3 (1/2) apaNew (by norm_num) (by norm_num) (by decide)

/-! ### Shared helper lemmas -/

theorem getD_set_self (l : List ℕ) (i a : ℕ) (h : i < l.length) :
    (l.set i a).getD i 0 = a := by
  simp [List.getD, List.getElem?_set_self, h]

theorem getD_set_ne (l : List ℕ) (i j a : ℕ) (h : i ≠ j) :
    (l.set i a).getD j 0 = l.getD j 0 := by
  simp [List.getD, List.getElem?_set_ne h]

/-- Recombining the two bytes produced by `u16_to_u8` reconstructs any
16-bit value. -/
theorem u16_to_u8_roundtrip (mask : ℕ) (h : mask < 65536) :
    (u16_to_u8 mask).1 ||| ((u16_to_u8 mask).2 <<< 8) = mask := by
  rw [u16_to_u8]
  apply Nat.eq_of_testBit_eq
  intro i
  have h255 : (0xFF : ℕ) = 2 ^ 8 - 1 := by norm_num
  simp only [Nat.testBit_or, Nat.testBit_and, Nat.testBit_shiftLeft, Nat.testBit_shiftRight,
    h255, Nat.testBit_two_pow_sub_one]
  rcases lt_or_le i 8 with hi | hi
  · have hn : ¬ 8 ≤ i := by omega
    simp [hi, hn]
  · rcases lt_or_le i 16 with hi2 | hi2
    · have hn : ¬ i < 8 := by omega
      have he : 8 + (i - 8) = i := by omega
      simp [hn, hi, he, show i - 8 < 8 by omega]
    · have hbit : mask.testBit i = false := by
        apply Nat.testBit_lt_two_pow
        calc mask < 65536 := h
          _ ≤ 2 ^ i := by
            have h16 : (65536 : ℕ) = 2 ^ 16 := by norm_num
            rw [h16]
            exact Nat.pow_le_pow_right (by norm_num) hi2
      have hn : ¬ i < 8 := by omega
      have hn2 : ¬ i - 8 < 8 := by omega
      simp [hbit, hn, hn2]

/-- A lookup whose key differs from every key of the list misses. -/
theorem lookup_none_of_keys {c : ℕ} :
    ∀ (l : List (ℕ × ℕ)), (∀ p ∈ l, p.1 ≠ c) → l.lookup c = none := by
  intro l
  induction l with
  | nil => intro _; rfl
  | cons p t ih =>
    intro h
    obtain ⟨k, v⟩ := p
    have hk : k ≠ c := h (k, v) (List.mem_cons_self _ _)
    have hbeq : (c == k) = false := beq_eq_false_iff_ne.mpr (fun hc => hk hc.symm)
    simpa [List.lookup, hbeq] using ih (fun q hq => h q (List.mem_cons_of_mem _ hq))

/-- Every key of the glyph table is a printable ASCII code. -/
theorem digit_keys_printable : ∀ p ∈ DIGIT_VALUES, 32 ≤ p.1 ∧ p.1 ≤ 126 := by
  decide

/-! ### C8 -/

/-- C8.  The glyph table maps `A` (65) to `0b0000000011110111` and
space (32) to 0; for every character code outside printable ASCII
(32–126) the lookup misses, and `set_digit` with such a character
panics (`unwrap()` of `None`) — it aborts rather than producing blank
output. -/
theorem c8_glyph_lookup :
    digitLookup 65 = some 0b0000000011110111 ∧
    digitLookup 32 = some 0 ∧
    ∀ c : ℕ, (c < 32 ∨ 126 < c) →
      digitLookup c = none ∧
        ∀ (pos : ℕ) (d : Bool) (st : HT16K33), setDigit pos c d st = Out.panic := by
  refine ⟨by decide, by decide, ?_⟩
  intro c hc
  have hnone : digitLookup c = none := by
    rw [digitLookup]
    apply lookup_none_of_keys
    intro p hp
    have := digit_keys_printable p hp
    omega
  exact ⟨hnone, fun pos d st => by simp [setDigit, hnone]⟩

/-- Witness for `c8_glyph_lookup` at the out-of-range code 200. -/
theorem c8_glyph_lookup_witness :
    digitLookup 200 = none ∧ setDigit 0 200 false htNew = Out.panic := by
  have h := c8_glyph_lookup.2.2 200 (Or.inr (by norm_num))
  exact ⟨h.1, h.2 0 false htNew⟩

/-! ### C9 -/

/-- C9.  For `pos ≤ 3`, `set_digit_raw(pos, mask)` stores the low
byte of `mask` at `buffer[2·pos]` and the high byte at
`buffer[2·pos+1]`, and recombining the two read-back bytes
reconstructs any 16-bit `mask` exactly; for `pos > 3` the whole state
(hence the 8-byte buffer) is left unchanged. -/
theorem c9_set_digit_raw_roundtrip (pos mask : ℕ) (st : HT16K33)
    (hlen : st.buffer.length = 8) :
    (pos ≤ 3 →
      (setDigitRaw pos mask st).buffer.getD (pos * 2) 0 = (mask &&& 0xFF) ∧
      (setDigitRaw pos mask st).buffer.getD (pos * 2 + 1) 0 = ((mask >>> 8) &&& 0xFF) ∧
      (mask < 65536 →
        ((setDigitRaw pos mask st).buffer.getD (pos * 2) 0) |||
          (((setDigitRaw pos mask st).buffer.getD (pos * 2 + 1) 0) <<< 8) = mask)) ∧
    (3 < pos → setDigitRaw pos mask st = st) := by
  constructor
  · intro hpos
    rw [setDigitRaw, if_pos hpos]
    have hlo :
        ((st.buffer.set (pos * 2) (u16_to_u8 mask).1).set (pos * 2 + 1)
          (u16_to_u8 mask).2).getD (pos * 2) 0 = (u16_to_u8 mask).1 := by
      rw [getD_set_ne _ _ _ _ (by omega), getD_set_self _ _ _ (by omega)]
    have hhi :
        ((st.buffer.set (pos * 2) (u16_to_u8 mask).1).set (pos * 2 + 1)
          (u16_to_u8 mask).2).getD (pos * 2 + 1) 0 = (u16_to_u8 mask).2 := by
      rw [getD_set_self]
      rw [List.length_set]
      omega
    refine ⟨hlo, hhi, fun hmask => ?_⟩
    rw [hlo, hhi]
    exact u16_to_u8_roundtrip mask hmask
  · intro hpos
    rw [setDigitRaw, if_neg (by omega)]

/-- Witness for `c9_set_digit_raw_roundtrip` at pos 2 / mask 0xABCD
and at the out-of-range pos 7. -/
theorem c9_set_digit_raw_roundtrip_witness :
    (((setDigitRaw 2 0xABCD htNew).buffer.getD 4 0) |||
      (((setDigitRaw 2 0xABCD htNew).buffer.getD 5 0) <<< 8) = 0xABCD) ∧
    setDigitRaw 7 5 htNew = htNew := by
  refine ⟨?_, (c9_set_digit_raw_roundtrip 7 5 htNew (by decide)).2 (by omega)⟩
  have h := ((c9_set_digit_raw_roundtrip 2 0xABCD htNew (by decide)).1 (by omega)).2.2 (by omega)
  simpa using h

/-! ### C10 -/

/-- C10.  No glyph mask in the table has bit 14 or bit 15 set, and
after `set_digit(pos, c, d)` (for an in-range position and a character
present in the table) the decimal-point bit — bit 6 of the high buffer
byte of that position — equals exactly `d`, regardless of the prior
buffer contents: `set_digit` unconditionally overwrites the
decimal-point state via `set_decimal`. -/
theorem c10_set_digit_decimal :
    (∀ p ∈ DIGIT_VALUES, p.2.testBit 14 = false ∧ p.2.testBit 15 = false) ∧
    ∀ (pos c : ℕ) (d : Bool) (st : HT16K33) (mask : ℕ),
      pos ≤ 3 → st.buffer.length = 8 → digitLookup c = some mask →
      ∃ s, setDigit pos c d st = Out.ok s [] ∧
        (s.buffer.getD (pos * 2 + 1) 0).testBit 6 = d := by
  refine ⟨by decide, ?_⟩
  intro pos c d st mask hpos hlen hc
  refine ⟨setDecimal pos d (setDigitRaw pos mask st), by simp [setDigit, hc], ?_⟩
  have hlen2 : (setDigitRaw pos mask st).buffer.length = 8 := by
    rw [setDigitRaw]
    split <;> simp [hlen]
  cases d with
  | true =>
    rw [setDecimal, if_pos hpos, if_pos rfl]
    rw [getD_set_self _ _ _ (by omega)]
    have h64 : Nat.testBit 64 6 = true := by decide
    simp [Nat.testBit_or, h64]
  | false =>
    rw [setDecimal, if_pos hpos]
    simp only [Bool.false_eq_true, if_false]
    rw [getD_set_self _ _ _ (by omega)]
    have h191 : Nat.testBit 191 6 = false := by decide
    simp [Nat.testBit_and, h191]

/-- Witness for `c10_set_digit_decimal` at pos 1, character `A`, both
decimal flags. -/
theorem c10_set_digit_decimal_witness :
    (∃ s, setDigit 1 65 true htNew = Out.ok s [] ∧
      (s.buffer.getD 3 0).testBit 6 = true) ∧
    (∃ s, setDigit 1 65 false htNew = Out.ok s [] ∧
      (s.buffer.getD 3 0).testBit 6 = false) := by
  constructor
  · simpa using c10_set_digit_decimal.2 1 65 true htNew 0b0000000011110111
      (by omega) (by decide) (by decide)
  · simpa using c10_set_digit_decimal.2 1 65 false htNew 0b0000000011110111
      (by omega) (by decide) (by decide)

/-! ### C6 -/

/-- The character loop of `print_str` succeeds from any starting
position when every character is present in the glyph table. -/
theorem printStrGo_total :
    ∀ (chars : List ℕ) (pos : ℕ) (st : HT16K33),
      (∀ c ∈ chars, (digitLookup c).isSome) →
      ∃ s, printStrGo chars pos st = Out.ok s [] := by
  intro chars
  induction chars with
  | nil => exact fun pos st _ => ⟨st, rfl⟩
  | cons c rest ih =>
    intro pos st h
    obtain ⟨mask, hm⟩ := Option.isSome_iff_exists.mp (h c (List.mem_cons_self _ _))
    obtain ⟨s2, hs2⟩ :=
      ih (pos + 1) (setDecimal pos false (setDigitRaw pos mask st))
        (fun q hq => h q (List.mem_cons_of_mem _ hq))
    exact ⟨s2, by simp [printStrGo, setDigit, hm, hs2]⟩

/-- Characters written at positions beyond 3 are silently ignored:
the loop leaves the state untouched (both `set_digit_raw` and
`set_decimal` drop out-of-range positions). -/
theorem printStrGo_out_of_range :
    ∀ (chars : List ℕ) (pos : ℕ) (st : HT16K33), 3 < pos →
      (∀ c ∈ chars, (digitLookup c).isSome) →
      printStrGo chars pos st = Out.ok st [] := by
  intro chars
  induction chars with
  | nil => exact fun pos st _ _ => rfl
  | cons c rest ih =>
    intro pos st hpos h
    obtain ⟨mask, hm⟩ := Option.isSome_iff_exists.mp (h c (List.mem_cons_self _ _))
    have hraw : setDigitRaw pos mask st = st := by
      rw [setDigitRaw, if_neg (by omega)]
    have hdec : setDecimal pos false st = st := by
      rw [setDecimal, if_neg (by omega)]
    simp only [printStrGo, setDigit, hm]
    rw [hraw, hdec]
    exact ih (pos + 1) st (by omega) (fun q hq => h q (List.mem_cons_of_mem _ hq))

/-- C6, counterexample.  The five characters of `HELLO` are all in the
glyph table (codes 72, 69, 76, 76, 79), yet
`print_str("HELLO", justify_right = true)` PANICS: the usize
subtraction `4 - value.len()` underflows.  `print_str` is not total
over both justification flags. -/
theorem c6_print_str_counterexample :
    (∀ c ∈ [72, 69, 76, 76, 79], (digitLookup c).isSome) ∧
    printStr [72, 69, 76, 76, 79] true (simDisp ⟨List.replicate 8 0, 0, 15⟩) =
      Out.panic := by
  exact ⟨by decide, by decide⟩

/-- C6, amended.  `print_str("TEST", false)` writes the glyphs of
`T`, `E`, `S`, `T` into positions 0–3 with every decimal-point bit
clear; `print_str` is total for every glyph-table string when
left-justified, with characters beyond position 3 silently ignored;
right-justified it is total only for strings of at most 4 characters
(started at offset `4 - len`, so the last character lands on position
3), and PANICS on longer strings (usize underflow in `4 - len`). -/
theorem c6_print_str_amended :
    (printStr [84, 69, 83, 84] false (simDisp ⟨List.replicate 8 0, 0, 15⟩) =
      Out.ok (simDisp ⟨[1, 18, 249, 0, 237, 0, 1, 18], 0, 15⟩) [] ∧
     ∀ p ∈ [0, 1, 2, 3],
       (List.getD [1, 18, 249, 0, 237, 0, 1, 18] (2 * p + 1) 0).testBit 6 = false) ∧
    (∀ (chars : List ℕ) (st : HT16K33),
      (∀ c ∈ chars, (digitLookup c).isSome) →
      ∃ s, printStr chars false st = Out.ok s []) ∧
    (∀ (chars : List ℕ) (st : HT16K33),
      (∀ c ∈ chars, (digitLookup c).isSome) → chars.length ≤ 4 →
      (∃ s, printStr chars true st = Out.ok s []) ∧
      printStr chars true st = printStrGo chars (4 - chars.length) st) ∧
    (∀ (chars : List ℕ) (st : HT16K33), 4 < chars.length →
      printStr chars true st = Out.panic) := by
  refine ⟨⟨by decide, by decide⟩, ?_, ?_, ?_⟩
  · intro chars st h
    exact printStrGo_total chars 0 st h
  · intro chars st h hlen
    have heq : printStr chars true st = printStrGo chars (4 - chars.length) st := by
      simp [printStr, hlen]
    exact ⟨heq ▸ printStrGo_total chars (4 - chars.length) st h, heq⟩
  · intro chars st hlen
    simp [printStr, show ¬ chars.length ≤ 4 by omega]

/-- Witness for `c6_print_str_amended`: left-justified single `A`, and
a right-justified two-character string. -/
theorem c6_print_str_amended_witness :
    (∃ s, printStr [65] false htNew = Out.ok s []) ∧
    (∃ s, printStr [65, 66] true htNew = Out.ok s []) ∧
    printStr [65, 66, 67, 68, 69] true htNew = Out.panic := by
  refine ⟨c6_print_str_amended.2.1 [65] htNew (by decide), ?_, ?_⟩
  · exact (c6_print_str_amended.2.2.1 [65, 66] htNew (by decide) (by decide)).1
  · exact c6_print_str_amended.2.2.2 [65, 66, 67, 68, 69] htNew (by decide)

/-! ### C2 -/

/-- The source's bit test `byte & (1 << n) != 0` is `Nat.testBit`. -/
theorem get_bit_at_eq_testBit (byte n : ℕ) : get_bit_at byte n = byte.testBit n := by
  have h : byte &&& (1 <<< n) = (byte.testBit n).toNat * 2 ^ n := by
    rw [Nat.shiftLeft_eq, one_mul, Nat.and_two_pow]
  rw [get_bit_at, h]
  cases hb : byte.testBit n <;> simp [hb]

/-- The source's `write_byte` emits exactly the spec's
most-significant-bit-first byte transmission. -/
theorem write_byte_events_eq_spec (byte : ℕ) :
    write_byte_events byte = transmitByteMSBFirst byte := by
  rw [write_byte_events, transmitByteMSBFirst]
  congr 1
  apply List.map_congr_left
  intro i _
  rw [transmitBit, get_bit_at_eq_testBit]

/-- The 4 bytes the source emits per pixel are the spec's 4 bytes. -/
theorem show_pixel_events_eq_spec (p : Pixel) :
    show_pixel_events p = ((specPixelBytes p).map transmitByteMSBFirst).flatten := by
  simp [show_pixel_events, specPixelBytes, write_byte_events_eq_spec]

/-- C2.  For every set-up, non-simulated driver (pins acquired),
`show` emits exactly: CS asserted low, then the spec's frame — a
start-of-frame of 32 clock pulses with the data line low; for each
pixel in index order 4 bytes most-significant-bit first, a control
byte `0b11100000 | brightness5` followed by the blue, green and red
bytes; an end-of-frame of 36 clock pulses with the data line low —
then CS high.  With the 7-pixel buffer this is 28 data bytes. -/
theorem c2_show_serialization (env : Env) (st : APA102)
    (hsetup : st.is_setup = true) (hsim : st.simulation = false) (hpins : st.pins = true) :
    apaShow env st =
      Out.ok st (GpioEv.cs false :: (specShowFrame st.pixels ++ [GpioEv.cs true])) ∧
    (st.pixels.length = NUM_PIXELS →
      ((st.pixels.map specPixelBytes).flatten).length = 28) := by
  constructor
  · rw [apaShow, if_pos hsetup]
    simp only [hsim, Bool.false_eq_true, if_false, hpins, if_true, List.nil_append]
    rw [show_events, specShowFrame]
    have hsof : sof_events = pulsesDataLow 32 := rfl
    have heof : eof_events = pulsesDataLow 36 := rfl
    rw [hsof, heof]
    congr 1
    rw [List.append_assoc, List.append_assoc]
    congr 1
    rw [← List.append_assoc, ← List.append_assoc]
    congr 2
    congr 1
    congr 1
    apply List.map_congr_left
    intro p _
    exact show_pixel_events_eq_spec p
  · intro hlen
    have : ∀ p : Pixel, (specPixelBytes p).length = 4 := fun p => rfl
    rw [List.length_flatten]
    simp only [List.map_map]
    rw [show (List.length ∘ specPixelBytes) = fun _ => 4 from funext fun p => rfl]
    simp [hlen, NUM_PIXELS, List.map_const]

/-- Witness for `c2_show_serialization` on a concrete 7-pixel state. -/
theorem c2_show_serialization_witness :
    apaShow ⟨true, true⟩ (hwLed ⟨List.replicate 7 ⟨1, 2, 3, 4⟩, 7⟩) =
      Out.ok (hwLed ⟨List.replicate 7 ⟨1, 2, 3, 4⟩, 7⟩)
        (GpioEv.cs false ::
          (specShowFrame (List.replicate 7 ⟨1, 2, 3, 4⟩) ++ [GpioEv.cs true])) ∧
    ((List.replicate 7 (Pixel.mk 1 2 3 4)).map specPixelBytes).flatten.length = 28 := by
  have h := c2_show_serialization ⟨true, true⟩ (hwLed ⟨List.replicate 7 ⟨1, 2, 3, 4⟩, 7⟩)
    rfl rfl rfl
  exact ⟨h.1, h.2 (by decide)⟩

/-! ### C7: per-operation simulation correspondence -/

/-- Running `set_pixel` across the two modes: both succeed with the same data
fields and no collaborator calls, or both panic. -/
theorem apaSetPixel_rel (x r g b : ℕ) (br : ℚ) (d : LedData) :
    (∃ d', apaSetPixel x r g b br (simLed d) = Out.ok (simLed d') [] ∧
      apaSetPixel x r g b br (hwLed d) = Out.ok (hwLed d') []) ∨
    (apaSetPixel x r g b br (simLed d) = Out.panic ∧
      apaSetPixel x r g b br (hwLed d) = Out.panic) := by
  by_cases h1 : 0 ≤ br ∧ br ≤ 1
  · by_cases h2 : x < d.pixels.length
    · left
      refine ⟨⟨d.pixels.set x ⟨r, g, b, quantize br⟩, d.brightness⟩, ?_, ?_⟩ <;>
        simp [apaSetPixel, h1, h2, simLed, hwLed]
    · right
      constructor <;> · rw [apaSetPixel, if_pos h1, if_neg]; exact h2
  · right
    constructor <;> rw [apaSetPixel, if_neg h1]

theorem apaSetAllGo_rel :
    ∀ (idxs : List ℕ) (r g b : ℕ) (br : ℚ) (d : LedData),
      (∃ d', apaSetAllGo idxs r g b br (simLed d) = Out.ok (simLed d') [] ∧
        apaSetAllGo idxs r g b br (hwLed d) = Out.ok (hwLed d') []) ∨
      (apaSetAllGo idxs r g b br (simLed d) = Out.panic ∧
        apaSetAllGo idxs r g b br (hwLed d) = Out.panic) := by
  intro idxs
  induction idxs with
  | nil => intro r g b br d; left; exact ⟨d, rfl, rfl⟩
  | cons i rest ih =>
    intro r g b br d
    rcases apaSetPixel_rel i r g b br d with ⟨d1, h1, h2⟩ | ⟨h1, h2⟩
    · rcases ih r g b br d1 with ⟨d2, g1, g2⟩ | ⟨g1, g2⟩
      · left
        exact ⟨d2, by simp [apaSetAllGo, h1, g1], by simp [apaSetAllGo, h2, g2]⟩
      · right
        constructor <;> simp [apaSetAllGo, h1, h2, g1, g2]
    · right
      constructor <;> simp [apaSetAllGo, h1, h2]

theorem apaSetAll_rel (r g b : ℕ) (br : ℚ) (d : LedData) :
    ledRel (apaSetAll r g b br (simLed d)) (apaSetAll r g b br (hwLed d)) := by
  rw [apaSetAll, apaSetAll]
  have hlen : (simLed d).pixels.length = (hwLed d).pixels.length := rfl
  rcases apaSetAllGo_rel (List.range d.pixels.length) r g b br d with ⟨d', h1, h2⟩ | ⟨h1, h2⟩
  · exact Or.inl ⟨d', [], h1, h2⟩
  · exact Or.inr ⟨h1, h2⟩

theorem apaSetBrightness_rel (br : ℚ) (d : LedData) :
    ledRel (apaSetBrightness br (simLed d)) (apaSetBrightness br (hwLed d)) := by
  by_cases h : 0 ≤ br ∧ br ≤ 1
  · left
    refine ⟨⟨d.pixels.map (fun p => { p with br := quantize br }), d.brightness⟩, [], ?_, ?_⟩ <;>
      simp [apaSetBrightness, h, simLed, hwLed]
  · right
    constructor <;> rw [apaSetBrightness, if_neg h]

theorem apaClear_rel (d : LedData) :
    ∃ d', apaClear (simLed d) = simLed d' ∧ apaClear (hwLed d) = hwLed d' := by
  refine ⟨⟨d.pixels.map (fun p => { p with r := 0, g := 0, b := 0 }), d.brightness⟩, ?_, ?_⟩ <;>
    simp [apaClear, simLed, hwLed]

theorem apaShow_rel (env : Env) (d : LedData) :
    ledRel (apaShow env (simLed d)) (apaShow env (hwLed d)) := by
  left
  exact ⟨d, show_events (hwLed d), by simp [apaShow, simLed], by simp [apaShow, hwLed]⟩

theorem htSetBlink_rel (f : ℕ) (d : DispData) :
    dispRel (htSetBlink f (simDisp d)) (htSetBlink f (hwDisp d)) := by
  left
  refine ⟨⟨d.buffer, f, d.brightness⟩,
    [I2cEv.blockWrite (HT16K33_BLINK_CMD ||| HT16K33_BLINK_DISPLAYON ||| f) []], ?_, ?_⟩ <;>
    simp [htSetBlink, htBlockWrite, simDisp, hwDisp]

theorem htSetBrightness_rel (b : ℕ) (d : DispData) :
    dispRel (htSetBrightness b (simDisp d)) (htSetBrightness b (hwDisp d)) := by
  by_cases h : b ≤ 15
  · left
    refine ⟨⟨d.buffer, d.blink_frequency, b⟩,
      [I2cEv.blockWrite (HT16K33_CMD_BRIGHTNESS ||| b) []], ?_, ?_⟩ <;>
      simp [htSetBrightness, htBlockWrite, h, simDisp, hwDisp]
  · right
    constructor <;> rw [htSetBrightness, if_neg h]

theorem htWriteDisplay_rel (env : Env) (d : DispData) :
    dispRel (htWriteDisplay env (simDisp d)) (htWriteDisplay env (hwDisp d)) := by
  left
  exact ⟨d, [I2cEv.blockWrite 0 d.buffer],
    by simp [htWriteDisplay, htBlockWrite, simDisp],
    by simp [htWriteDisplay, htBlockWrite, hwDisp]⟩

theorem htClear_rel (d : DispData) :
    ∃ d', htClear (simDisp d) = simDisp d' ∧ htClear (hwDisp d) = hwDisp d' := by
  refine ⟨⟨d.buffer.map (fun _ => 0), d.blink_frequency, d.brightness⟩, ?_, ?_⟩ <;>
    simp [htClear, simDisp, hwDisp]

theorem setDigitRaw_rel (pos m : ℕ) (d : DispData) :
    ∃ d', setDigitRaw pos m (simDisp d) = simDisp d' ∧
      setDigitRaw pos m (hwDisp d) = hwDisp d' := by
  by_cases h : pos ≤ 3
  · refine ⟨⟨(d.buffer.set (pos * 2) (u16_to_u8 m).1).set (pos * 2 + 1) (u16_to_u8 m).2,
      d.blink_frequency, d.brightness⟩, ?_, ?_⟩ <;>
      simp [setDigitRaw, h, simDisp, hwDisp]
  · exact ⟨d, by rw [setDigitRaw, if_neg h], by rw [setDigitRaw, if_neg h]⟩

theorem setDecimal_rel (pos : ℕ) (dec : Bool) (d : DispData) :
    ∃ d', setDecimal pos dec (simDisp d) = simDisp d' ∧
      setDecimal pos dec (hwDisp d) = hwDisp d' := by
  by_cases h : pos ≤ 3
  · cases dec with
    | true =>
      refine ⟨⟨d.buffer.set (pos * 2 + 1) ((d.buffer.getD (pos * 2 + 1) 0) ||| (1 <<< 6)),
        d.blink_frequency, d.brightness⟩, ?_, ?_⟩ <;>
        simp [setDecimal, h, simDisp, hwDisp]
    | false =>
      refine ⟨⟨d.buffer.set (pos * 2 + 1) ((d.buffer.getD (pos * 2 + 1) 0) &&& 0xBF),
        d.blink_frequency, d.brightness⟩, ?_, ?_⟩ <;>
        simp [setDecimal, h, simDisp, hwDisp]
  · exact ⟨d, by rw [setDecimal, if_neg h], by rw [setDecimal, if_neg h]⟩

/-- Running `set_digit` across the two modes: both succeed with the same data
fields and no collaborator calls, or both panic on a missing glyph. -/
theorem setDigit_rel (pos c : ℕ) (dec : Bool) (d : DispData) :
    (∃ d', setDigit pos c dec (simDisp d) = Out.ok (simDisp d') [] ∧
      setDigit pos c dec (hwDisp d) = Out.ok (hwDisp d') []) ∨
    (setDigit pos c dec (simDisp d) = Out.panic ∧
      setDigit pos c dec (hwDisp d) = Out.panic) := by
  cases hc : digitLookup c with
  | none => right; constructor <;> simp [setDigit, hc]
  | some mask =>
    obtain ⟨d1, h1, h2⟩ := setDigitRaw_rel pos mask d
    obtain ⟨d2, g1, g2⟩ := setDecimal_rel pos dec d1
    left
    exact ⟨d2, by simp [setDigit, hc, h1, g1], by simp [setDigit, hc, h2, g2]⟩

theorem printStrGo_rel :
    ∀ (chars : List ℕ) (pos : ℕ) (d : DispData),
      (∃ d', printStrGo chars pos (simDisp d) = Out.ok (simDisp d') [] ∧
        printStrGo chars pos (hwDisp d) = Out.ok (hwDisp d') []) ∨
      (printStrGo chars pos (simDisp d) = Out.panic ∧
        printStrGo chars pos (hwDisp d) = Out.panic) := by
  intro chars
  induction chars with
  | nil => intro pos d; left; exact ⟨d, rfl, rfl⟩
  | cons c rest ih =>
    intro pos d
    rcases setDigit_rel pos c false d with ⟨d1, h1, h2⟩ | ⟨h1, h2⟩
    · rcases ih (pos + 1) d1 with ⟨d2, g1, g2⟩ | ⟨g1, g2⟩
      · left
        exact ⟨d2, by simp [printStrGo, h1, g1], by simp [printStrGo, h2, g2]⟩
      · right
        constructor <;> simp [printStrGo, h1, h2, g1, g2]
    · right
      constructor <;> simp [printStrGo, h1, h2]

theorem printStr_rel (chars : List ℕ) (j : Bool) (d : DispData) :
    dispRel (printStr chars j (simDisp d)) (printStr chars j (hwDisp d)) := by
  cases j with
  | false =>
    rcases printStrGo_rel chars 0 d with ⟨d', h1, h2⟩ | ⟨h1, h2⟩
    · exact Or.inl ⟨d', [], by simpa [printStr] using h1, by simpa [printStr] using h2⟩
    · exact Or.inr ⟨by simpa [printStr] using h1, by simpa [printStr] using h2⟩
  | true =>
    by_cases h : chars.length ≤ 4
    · rcases printStrGo_rel chars (4 - chars.length) d with ⟨d', h1, h2⟩ | ⟨h1, h2⟩
      · exact Or.inl ⟨d', [], by simpa [printStr, h] using h1, by simpa [printStr, h] using h2⟩
      · exact Or.inr ⟨by simpa [printStr, h] using h1, by simpa [printStr, h] using h2⟩
    · right
      constructor <;> simp [printStr, h]

theorem sysRel_liftLed (o1 o2 : Out APA102 GpioEv) (dd : DispData)
    (h : ledRel o1 o2) :
    sysRel (liftLed o1 (simDisp dd)) (liftLed o2 (hwDisp dd)) := by
  rcases h with ⟨d, evs, h1, h2⟩ | ⟨h1, h2⟩
  · left
    exact ⟨⟨d, dd⟩, evs.map Ev.gpio, by simp [liftLed, h1, mkSimSys],
      by simp [liftLed, h2, mkHwSys]⟩
  · right
    constructor <;> simp [liftLed, h1, h2]

theorem sysRel_liftDisp (o1 o2 : Out HT16K33 I2cEv) (ld : LedData)
    (h : dispRel o1 o2) :
    sysRel (liftDisp (simLed ld) o1) (liftDisp (hwLed ld) o2) := by
  rcases h with ⟨d, evs, h1, h2⟩ | ⟨h1, h2⟩
  · left
    exact ⟨⟨ld, d⟩, evs.map Ev.i2cBus, by simp [liftDisp, h1, mkSimSys],
      by simp [liftDisp, h2, mkHwSys]⟩
  · right
    constructor <;> simp [liftDisp, h1, h2]

theorem stepOp_rel (env : Env) (op : Op) (d : SysData) :
    sysRel (stepOp env op (mkSimSys d)) (stepOp env op (mkHwSys d)) := by
  cases op with
  | opSetPixel x r g b br =>
    refine sysRel_liftLed _ _ d.disp ?_
    rcases apaSetPixel_rel x r g b br d.led with ⟨d', h1, h2⟩ | ⟨h1, h2⟩
    · exact Or.inl ⟨d', [], h1, h2⟩
    · exact Or.inr ⟨h1, h2⟩
  | opSetAll r g b br =>
    exact sysRel_liftLed _ _ d.disp (apaSetAll_rel r g b br d.led)
  | opSetBrightness br =>
    exact sysRel_liftLed _ _ d.disp (apaSetBrightness_rel br d.led)
  | opClearLed =>
    obtain ⟨d', h1, h2⟩ := apaClear_rel d.led
    left
    exact ⟨⟨d', d.disp⟩, [], by simp [stepOp, mkSimSys, h1],
      by simp [stepOp, mkHwSys, h2]⟩
  | opShow =>
    exact sysRel_liftLed _ _ d.disp (apaShow_rel env d.led)
  | opSetBlink f =>
    exact sysRel_liftDisp _ _ d.led (htSetBlink_rel f d.disp)
  | opSetBrightness16 b =>
    exact sysRel_liftDisp _ _ d.led (htSetBrightness_rel b d.disp)
  | opWriteDisplay =>
    exact sysRel_liftDisp _ _ d.led (htWriteDisplay_rel env d.disp)
  | opClearDisplay =>
    obtain ⟨d', h1, h2⟩ := htClear_rel d.disp
    left
    exact ⟨⟨d.led, d'⟩, [], by simp [stepOp, mkSimSys, h1],
      by simp [stepOp, mkHwSys, h2]⟩
  | opSetDigitRaw pos m =>
    obtain ⟨d', h1, h2⟩ := setDigitRaw_rel pos m d.disp
    left
    exact ⟨⟨d.led, d'⟩, [], by simp [stepOp, mkSimSys, h1],
      by simp [stepOp, mkHwSys, h2]⟩
  | opSetDecimal pos dec =>
    obtain ⟨d', h1, h2⟩ := setDecimal_rel pos dec d.disp
    left
    exact ⟨⟨d.led, d'⟩, [], by simp [stepOp, mkSimSys, h1],
      by simp [stepOp, mkHwSys, h2]⟩
  | opSetDigit pos c dec =>
    refine sysRel_liftDisp _ _ d.led ?_
    rcases setDigit_rel pos c dec d.disp with ⟨d', h1, h2⟩ | ⟨h1, h2⟩
    · exact Or.inl ⟨d', [], h1, h2⟩
    · exact Or.inr ⟨h1, h2⟩
  | opPrintStr cs j =>
    exact sysRel_liftDisp _ _ d.led (printStr_rel cs j d.disp)

theorem run_rel (env : Env) :
    ∀ (ops : List Op) (d : SysData),
      sysRel (run env ops (mkSimSys d)) (run env ops (mkHwSys d)) := by
  intro ops
  induction ops with
  | nil => intro d; left; exact ⟨d, [], rfl, rfl⟩
  | cons op rest ih =>
    intro d
    rcases stepOp_rel env op d with ⟨d1, evs, h1, h2⟩ | ⟨h1, h2⟩
    · rcases ih d1 with ⟨d2, evs2, g1, g2⟩ | ⟨g1, g2⟩
      · left
        exact ⟨d2, evs ++ evs2, by simp [run, h1, g1], by simp [run, h2, g2]⟩
      · right
        constructor <;> simp [run, h1, h2, g1, g2]
    · right
      constructor <;> simp [run, h1, h2]

/-- C7.  For every collection of shared data fields (pixel buffer,
display buffer, blink frequency, brightness levels), every environment
and every sequence of buffer-mutating operations of the two drivers:
running the sequence on the simulation-mode system and on the
hardware-mode system (after successful setup) yields identical data
fields (or both runs panic at the same point), and the simulated run
performs ZERO calls into the GPIO / I2C collaborators. -/
theorem c7_simulation_equivalence (env : Env) (d : SysData) (ops : List Op) :
    outData (run env ops (mkSimSys d)) = outData (run env ops (mkHwSys d)) ∧
    outEvents (run env ops (mkSimSys d)) = [] := by
  rcases run_rel env ops d with ⟨d', evs, h1, h2⟩ | ⟨h1, h2⟩
  · rw [h1, h2]
    exact ⟨by simp [outData, sysData, mkSimSys, mkHwSys, simLed, hwLed, simDisp, hwDisp], rfl⟩
  · rw [h1, h2]
    exact ⟨rfl, rfl⟩

end RainbowHat
